import Mathlib

/-!
Verification development for the qvoch voice-chat server (Go sources under
`internal/sfu` and `internal/handlers`).

The Go code is shallowly embedded as executable Lean functions:

* maps (`Hub.Rooms`, `Room.Peers`, …) become association lists keyed by the
  Go map key;
* Go pointers to `Peer` objects become identifiers into a peer "heap"
  (`Hub.peers`), mirroring pointer mutation by heap update;
* wall-clock instants (`time.Time`) and durations become natural numbers of
  milliseconds; the zero `time.Time` becomes `Option.none`;
* side effects that leave the modelled state (WebSocket sends, WebRTC media
  calls, timers) are either recorded as emitted messages (`OutMsg`) or
  projected to the boolean presence flags they toggle (`pcPresent`,
  `trackPresent`);
* the external bcrypt library is modelled by an injective tagging function
  (`bcryptGenerate` / `bcryptCompare`), and the pion `AddICECandidate` /
  `SetRemoteDescription` calls by their documented state semantics
  (`AddICECandidate` fails when no remote description is set).

Randomness (UUIDs, room-name suffixes) is passed in as explicit parameters.
-/

namespace QVoCh

/-! ## Error codes (internal/sfu messages file) -/

def ErrAuthFailed : String := "AUTH_FAILED"
def ErrPasswordRequired : String := "PASSWORD_REQUIRED"
def ErrPasswordWrong : String := "PASSWORD_WRONG"
def ErrChannelFull : String := "CHANNEL_FULL"
def ErrServerFull : String := "SERVER_FULL"
def ErrNameTaken : String := "NAME_TAKEN"
def ErrChannelNotFound : String := "CHANNEL_NOT_FOUND"
def ErrAlreadyInSub : String := "ALREADY_IN_SUB"
def ErrInviteExpired : String := "INVITE_EXPIRED"
def ErrInvalidMessage : String := "INVALID_MESSAGE"
def ErrInternalError : String := "INTERNAL_ERROR"

/-! ## Durations in milliseconds -/

def oneSecondMs : Nat := 1000
def tenMinutesMs : Nat := 600000
def fiveMinutesMs : Nat := 300000
def thirtyMinutesMs : Nat := 1800000
def twentyFourHoursMs : Nat := 86400000
def sevenDaysMs : Nat := 604800000

/-! ## Connection handler: origin check (handlers `upgrader.CheckOrigin`)

The Go `allowedOrigins` map holds the trimmed non-empty entries of the
`ALLOWED_ORIGINS` environment variable; it is modelled as the list of those
entries, with `len(allowedOrigins) > 0` becoming list non-emptiness and map
membership becoming `List.contains`. -/

def checkOrigin (allowedOrigins : List String) (origin host : String) : Bool :=
  if origin = "" then
    true
  else if allowedOrigins.length > 0 then
    allowedOrigins.contains origin
  else
    origin = "http://" ++ host || origin = "https://" ++ host

/-! ## Chat history ring (Room.AddChatMessage) -/

structure ChatMessage where
  id : String
  userId : String
  userName : String
  ciphertext : String
  timestamp : Nat
  deriving Repr, DecidableEq

/-- Embedding of Go `Room.AddChatMessage`: append, then truncate from the
front when the configured capacity is exceeded. -/
def addChatMessage (history : List ChatMessage) (msg : ChatMessage) (maxSize : Nat) :
    List ChatMessage :=
  let h := history ++ [msg]
  if h.length > maxSize then h.drop (h.length - maxSize) else h

/-- Folding a whole sequence of appends over an initial history. -/
def chatHistoryAfter (msgs : List ChatMessage) (maxSize : Nat) : List ChatMessage :=
  msgs.foldl (fun h m => addChatMessage h m maxSize) []

/-! ## Signaling engine: epoch/seq-tagged answer and ICE-candidate handling

Embeds the epoch/seq variants of `Hub.HandleAnswer` and
`Hub.HandleICECandidate`.  Go's `uint64` counters are modelled as `Nat`:
the code only increments them and compares for equality/order, which agrees
with `Nat` for every representable value.  The pion media connection is
projected to the state these handlers interact with: the remote description
and the list of successfully added remote candidates.  Per pion's
`PeerConnection.AddICECandidate`, adding a candidate fails (and the
candidate is dropped) when no remote description has been set;
`SetRemoteDescription` of a well-formed answer succeeds. -/

structure ICECandidateInit where
  candidate : String
  sdpMid : Option String
  sdpMLineIndex : Option Nat
  deriving Repr, DecidableEq

structure MediaConnection where
  remoteDescription : Option String
  candidates : List ICECandidateInit
  deriving Repr, DecidableEq

/-- Model of pion `PeerConnection.AddICECandidate`: fails when no remote
description is set, otherwise records the candidate. -/
def addICECandidate (pc : MediaConnection) (ice : ICECandidateInit) :
    Except String MediaConnection :=
  match pc.remoteDescription with
  | none => .error "remote description is not set"
  | some _ => .ok { pc with candidates := pc.candidates ++ [ice] }

/-- The signaling-relevant slice of a `Peer`: media connection (or `none`),
`Epoch`, `OfferSeq`, and whether the one-shot `signalingReady` channel is
currently non-nil (open). -/
structure SigPeer where
  pc : Option MediaConnection
  epoch : Nat
  offerSeq : Nat
  signalingReadyOpen : Bool
  deriving Repr, DecidableEq

inductive AnswerOutcome where
  | noPeerConnection
  | staleEpoch
  | staleSeq
  | accepted
  deriving Repr, DecidableEq

/-- Embedding of the epoch/seq variant of `Hub.HandleAnswer`. -/
def handleAnswerES (p : SigPeer) (sdp : String) (seq epoch : Nat) :
    AnswerOutcome × SigPeer :=
  match p.pc with
  | none => (.noPeerConnection, p)
  | some pc =>
    if epoch ≠ p.epoch then (.staleEpoch, p)
    else if seq ≠ p.offerSeq then (.staleSeq, p)
    else
      (.accepted,
        { p with
            pc := some { pc with remoteDescription := some sdp },
            signalingReadyOpen := false })

inductive CandidateOutcome where
  | noPeerConnection
  | staleEpoch
  | futureSeq
  | addFailedNoRemoteDescription
  | added
  deriving Repr, DecidableEq

/-- Embedding of the epoch/seq variant of `Hub.HandleICECandidate`.
`sdpMLineIndex` is a Go `*int`; the code converts it with `uint16(*v)`,
modelled by `v % 65536`. -/
def handleICECandidateES (p : SigPeer) (candidate sdpMid : String)
    (sdpMLineIndex : Option Int) (seq epoch : Nat) :
    CandidateOutcome × SigPeer :=
  match p.pc with
  | none => (.noPeerConnection, p)
  | some pc =>
    if epoch ≠ p.epoch then (.staleEpoch, p)
    else if seq > p.offerSeq then (.futureSeq, p)
    else
      let sdpMLineIndexUint16 : Option Nat :=
        sdpMLineIndex.map (fun v => (v % 65536).toNat)
      let sdpMidOpt : Option String := if sdpMid = "" then none else some sdpMid
      let ice : ICECandidateInit :=
        { candidate := candidate, sdpMid := sdpMidOpt,
          sdpMLineIndex := sdpMLineIndexUint16 }
      match addICECandidate pc ice with
      | .error _ => (.addFailedNoRemoteDescription, p)
      | .ok pc2 => (.added, { p with pc := some pc2 })

/-! ## Connection handler: message rate limiter and dispatch loop

Embeds `rateLimiter` / `rateLimiter.allow` and the rate-limit portion of the
`HandleWebSocket` read loop.  Instants are `Nat` milliseconds; Go's
`elapsed >= time.Second` becomes `oneSecondMs ≤ now - lastReset`
(`Nat` subtraction truncates at zero exactly like a negative `elapsed`
failing the comparison). -/

structure RateLimiter where
  tokens : Int
  lastReset : Nat
  maxRate : Int
  deriving Repr, DecidableEq

def newRateLimiter (maxRate : Int) (now : Nat) : RateLimiter :=
  { tokens := maxRate, lastReset := now, maxRate := maxRate }

def RateLimiter.allowAt (rl : RateLimiter) (now : Nat) : Bool × RateLimiter :=
  let rl :=
    if oneSecondMs ≤ now - rl.lastReset then
      { rl with tokens := rl.maxRate, lastReset := now }
    else rl
  if rl.tokens ≤ 0 then (false, rl)
  else (true, { rl with tokens := rl.tokens - 1 })

inductive MsgAction where
  | processed
  | rateLimitError
  | closedPolicyViolation
  deriving Repr, DecidableEq

structure ConnState where
  limiter : RateLimiter
  violations : Nat
  closed : Bool
  deriving Repr, DecidableEq

/-- One iteration of the `HandleWebSocket` read loop, restricted to the
rate-limiting logic: over-limit messages below the violation threshold get an
inline `INVALID_MESSAGE` rate-limit error; reaching 50 violations closes the
connection with a policy-violation close code instead. -/
def dispatchStep (s : ConnState) (now : Nat) : MsgAction × ConnState :=
  let res := s.limiter.allowAt now
  if res.1 then (.processed, { s with limiter := res.2 })
  else
    let v := s.violations + 1
    if 50 ≤ v then
      (.closedPolicyViolation, { limiter := res.2, violations := v, closed := true })
    else
      (.rateLimitError, { limiter := res.2, violations := v, closed := s.closed })

/-- Running the loop over a list of message arrival times. -/
def dispatchRun : ConnState → List Nat → List MsgAction
  | _, [] => []
  | s, t :: ts =>
    if s.closed then []
    else (dispatchStep s t).1 :: dispatchRun (dispatchStep s t).2 ts

/-- Fresh per-connection state as set up by `HandleWebSocket`
(`newRateLimiter(30)`, zero violations). -/
def freshConnState (now : Nat) : ConnState :=
  { limiter := newRateLimiter 30 now, violations := 0, closed := false }

/-! ## Hub data model

Go maps become association lists; Go pointers to `Peer` objects become
identifiers into the `Hub.peers` heap.  `Room.SubChannels` of a main room is
kept inline as an association list of `SubRoom` — the code only ever creates
sub-rooms with an empty `SubChannels` map, so nesting depth 1 is structural
here. -/

def mapInsert {α : Type} (m : List (String × α)) (k : String) (v : α) :
    List (String × α) :=
  match m with
  | [] => [(k, v)]
  | (k2, v2) :: rest => if k2 = k then (k, v) :: rest else (k2, v2) :: mapInsert rest k v

def mapErase {α : Type} (m : List (String × α)) (k : String) : List (String × α) :=
  m.filter (fun e => e.1 != k)

/-- Model of the external bcrypt library: `GenerateFromPassword` is an
injective tagging, `CompareHashAndPassword` succeeds exactly on the matching
password. -/
def bcryptGenerate (password : String) : String :=
  "bcrypt:" ++ password

def bcryptCompare (hash password : String) : Bool :=
  hash = bcryptGenerate password

structure Peer where
  id : String
  sessionToken : String
  sessionCreatedAt : Nat
  name : String
  connPresent : Bool
  pcPresent : Bool
  trackPresent : Bool
  roomID : String
  mainRoomID : String
  muted : Bool
  deriving Repr, DecidableEq

structure SubRoom where
  id : String
  name : String
  fullName : String
  parentID : String
  passwordHash : String
  createdAt : Nat
  peerIds : List String
  chatHistory : List ChatMessage
  expiry : Option Nat
  countdownExpiresAt : Nat
  deriving Repr, DecidableEq

structure Room where
  id : String
  name : String
  fullName : String
  inviteToken : String
  parentID : String
  passwordHash : String
  createdAt : Nat
  peerIds : List String
  subChannels : List (String × SubRoom)
  chatHistory : List ChatMessage
  expiry : Option Nat
  countdownExpiresAt : Nat
  deriving Repr, DecidableEq

structure PendingInvite where
  id : String
  fromPeerId : String
  toPeerId : String
  mainRoomId : String
  channelName : String
  createdAt : Nat
  deriving Repr, DecidableEq

structure Hub where
  rooms : List (String × Room)
  roomsByName : List (String × String)
  inviteMap : List (String × String)
  sessionMap : List (String × String)
  pendingInvites : List (String × PendingInvite)
  peers : List (String × Peer)
  roomCreatesPerIP : List (String × List Nat)
  maxUsersPerRoom : Nat
  maxTotalRooms : Nat
  chatHistorySize : Nat
  deriving Repr, DecidableEq

def Hub.lookupPeer (h : Hub) (pid : String) : Option Peer :=
  h.peers.lookup pid

def Hub.updatePeer (h : Hub) (pid : String) (f : Peer → Peer) : Hub :=
  { h with peers := h.peers.map (fun e => if e.1 = pid then (e.1, f e.2) else e) }

/-- Go `Room.AddPeer` (shared by main rooms): store under the peer's id and
clear the expiry timestamp. -/
def Room.addPeerId (r : Room) (pid : String) : Room :=
  { r with
      peerIds := if r.peerIds.contains pid then r.peerIds else r.peerIds ++ [pid],
      expiry := none }

/-- Go `Room.RemovePeer`: delete the member; when the room becomes empty,
stamp the expiry with the current time. -/
def Room.removePeerId (r : Room) (pid : String) (now : Nat) : Room :=
  let ps := r.peerIds.filter (fun q => q != pid)
  { r with peerIds := ps, expiry := if ps.isEmpty then some now else r.expiry }

def SubRoom.addPeerId (s : SubRoom) (pid : String) : SubRoom :=
  { s with
      peerIds := if s.peerIds.contains pid then s.peerIds else s.peerIds ++ [pid],
      expiry := none }

def SubRoom.removePeerId (s : SubRoom) (pid : String) (now : Nat) : SubRoom :=
  let ps := s.peerIds.filter (fun q => q != pid)
  { s with peerIds := ps, expiry := if ps.isEmpty then some now else s.expiry }

/-- Occupancy of a main room as computed inside `Hub.JoinRoom`:
members of the main room plus the members of every sub-channel. -/
def Room.occupancy (r : Room) : Nat :=
  r.peerIds.length + (r.subChannels.map (fun s => s.2.peerIds.length)).sum

def Hub.peerName (h : Hub) (pid : String) : Option String :=
  (h.lookupPeer pid).map (fun p => p.name)

/-- Go `Hub.isNameTakenInRoom`: scan the main room's members and every
sub-channel's members. -/
def Hub.isNameTakenInRoom (h : Hub) (r : Room) (username : String) : Bool :=
  r.peerIds.any (fun pid => h.peerName pid == some username) ||
    r.subChannels.any
      (fun s => s.2.peerIds.any (fun pid => h.peerName pid == some username))

/-! ## Hub operations -/

/-- Messages sent back over peers' transports (`SendError` / `SendJSON`).
The welcome payload is projected to the fields the claims mention. -/
inductive OutMsg where
  | errorTo (peerId code msg : String)
  | welcomeTo (peerId userId sessionToken roomId : String)
  | inviteReqTo (peerId inviteId fromUserId fromName channelName : String)
  | inviteExpiredTo (peerId inviteId reason : String)
  deriving Repr, DecidableEq

/-- The room-name generation loop of `Hub.CreateRoom`: up to 10 attempts,
drawing the i-th random `#NNNN` suffix from the oracle `suffixes`. -/
def genFullNameLoop (roomsByName : List (String × String)) (channelName : String)
    (suffixes : Nat → String) (i fuel : Nat) : Except String String :=
  match fuel with
  | 0 => .error "could not generate unique room name after 10 retries"
  | fuel2 + 1 =>
    let fullName := channelName ++ suffixes i
    if (roomsByName.lookup fullName).isNone then .ok fullName
    else if i = 9 then .error "could not generate unique room name after 10 retries"
    else genFullNameLoop roomsByName channelName suffixes (i + 1) fuel2

def genFullName (roomsByName : List (String × String)) (channelName : String)
    (suffixes : Nat → String) : Except String String :=
  genFullNameLoop roomsByName channelName suffixes 0 10

/-- Embedding of `Hub.CreateRoom`.  The UUIDs and random suffixes drawn by
the Go code are passed in explicitly. -/
def createRoom (h : Hub) (channelName password creatorId ip : String) (now : Nat)
    (suffixes : Nat → String) (roomID inviteToken sessionToken : String) :
    Except String Hub :=
  let hashedPassword := bcryptGenerate password
  if h.rooms.length ≥ h.maxTotalRooms then
    .error (ErrServerFull ++ ":Server has reached the maximum number of rooms")
  else
    let ipStep : Except String Hub :=
      if ip ≠ "" then
        let cutoff := now - tenMinutesMs
        let recent := (h.roomCreatesPerIP.lookup ip).getD []
        let filtered := recent.filter (fun t => t > cutoff)
        if filtered.length ≥ 3 then
          .error (ErrServerFull ++ ":Too many rooms created recently, try again later")
        else
          .ok { h with roomCreatesPerIP := mapInsert h.roomCreatesPerIP ip (filtered ++ [now]) }
      else .ok h
    match ipStep with
    | .error e => .error e
    | .ok h2 =>
      match genFullName h2.roomsByName channelName suffixes with
      | .error e => .error e
      | .ok fullName =>
        let room : Room :=
          { id := roomID, name := channelName, fullName := fullName,
            inviteToken := inviteToken, parentID := "",
            passwordHash := hashedPassword, createdAt := now, peerIds := [],
            subChannels := [], chatHistory := [], expiry := none,
            countdownExpiresAt := 0 }
        let h3 := h2.updatePeer creatorId
          (fun p => { p with roomID := roomID, mainRoomID := roomID })
        let room2 := room.addPeerId creatorId
        let h4 :=
          { h3 with
              rooms := mapInsert h3.rooms roomID room2,
              roomsByName := mapInsert h3.roomsByName fullName roomID,
              inviteMap := mapInsert h3.inviteMap inviteToken roomID }
        let h5 := h4.updatePeer creatorId
          (fun p => { p with sessionToken := sessionToken, sessionCreatedAt := now })
        .ok { h5 with sessionMap := mapInsert h5.sessionMap sessionToken creatorId }

structure CreatePayload where
  username : String
  channelName : String
  password : String
  deriving Repr, DecidableEq

structure JoinPayload where
  username : String
  channelName : String
  password : String
  inviteToken : String
  sessionToken : String
  deriving Repr, DecidableEq

/-- Model of Go `strings.TrimSpace` (restricted to the ASCII whitespace
characters, which is all the validation logic depends on). -/
def trimSpace (s : String) : String :=
  String.mk
    (((s.toList.dropWhile Char.isWhitespace).reverse.dropWhile Char.isWhitespace).reverse)

/-- Go `validateUsername`: trim, then require 1..24 code points
(`utf8.RuneCountInString` = number of unicode scalar values = Lean
`String.length`). -/
def validateUsername (name : String) : String :=
  let name2 := trimSpace name
  if name2 = "" then ""
  else if name2.length > 24 then ""
  else name2

/-- One character of the Go `channelNameRegex` class `[a-zA-Z0-9 \-]`
(Lean `Char.isAlphanum` is exactly ASCII alphanumeric). -/
def validChannelNameChar (c : Char) : Bool :=
  c.isAlphanum || c = ' ' || c = '-'

/-- Go `validateChannelName`: trim, length 1..30 code points, all characters
in the regex class. -/
def validateChannelName (name : String) : Bool :=
  let name2 := trimSpace name
  if name2 = "" || name2.length > 30 then false
  else name2.toList.all validChannelNameChar

/-- Go `validatePassword`: 6..64 bytes. -/
def validatePassword (pw : String) : Bool :=
  6 ≤ pw.utf8ByteSize && pw.utf8ByteSize ≤ 64

/-- Embedding of the handler `handleCreate` (payload already decoded;
media-connection creation after the welcome is projected to the presence
flags). -/
def handleCreate (h : Hub) (peerId : String) (p : CreatePayload) (ip : String)
    (now : Nat) (suffixes : Nat → String) (roomID inviteToken sessionToken : String) :
    Hub × List OutMsg :=
  let username := validateUsername p.username
  if username = "" then
    (h, [.errorTo peerId ErrInvalidMessage "Username must be 1-24 characters"])
  else if !validateChannelName p.channelName then
    (h, [.errorTo peerId ErrInvalidMessage
      "Channel name must be 1-30 alphanumeric characters, spaces, or hyphens"])
  else if !validatePassword p.password then
    (h, [.errorTo peerId ErrPasswordRequired "Password must be 6-64 characters"])
  else
    let h2 := h.updatePeer peerId (fun q => { q with name := username })
    match createRoom h2 p.channelName p.password peerId ip now suffixes roomID
        inviteToken sessionToken with
    | .error e => (h2, [.errorTo peerId ErrInternalError e])
    | .ok h3 =>
      let userId := ((h3.lookupPeer peerId).map (fun q => q.id)).getD peerId
      let h4 := h3.updatePeer peerId
        (fun q => { q with pcPresent := true, trackPresent := true })
      (h4, [.welcomeTo peerId userId sessionToken roomID])

/-- Resolution by invite token or channel name + password, and the
post-resolution checks and insertion, from `Hub.JoinRoom` (everything after
the session-token branch). -/
def joinRoomResolve (h : Hub) (p : JoinPayload) (peerId : String) (now : Nat)
    (newSessionToken : String) : Hub × Except String (String × String) :=
  let resolved : Hub × Except String Room :=
    if p.inviteToken ≠ "" then
      match h.inviteMap.lookup p.inviteToken with
      | none => (h, .error (ErrChannelNotFound ++ ":Room not found"))
      | some rid =>
        match h.rooms.lookup rid with
        | none => (h, .error (ErrChannelNotFound ++ ":Room not found"))
        | some r =>
          if now - r.createdAt > sevenDaysMs then
            ({ h with inviteMap := mapErase h.inviteMap p.inviteToken },
             .error (ErrInviteExpired ++ ":Invite link has expired"))
          else (h, .ok r)
    else if p.channelName ≠ "" then
      match h.roomsByName.lookup p.channelName with
      | none => (h, .error (ErrChannelNotFound ++ ":Room not found"))
      | some rid =>
        match h.rooms.lookup rid with
        | none => (h, .error (ErrChannelNotFound ++ ":Room not found"))
        | some r =>
          if p.password = "" then
            (h, .error (ErrPasswordRequired ++ ":Password is required"))
          else if !bcryptCompare r.passwordHash p.password then
            (h, .error (ErrPasswordWrong ++ ":Invalid password"))
          else (h, .ok r)
    else (h, .error (ErrInvalidMessage ++ ":Must provide channelName or inviteToken"))
  let h2 := resolved.1
  match resolved.2 with
  | .error e => (h2, .error e)
  | .ok room =>
    if room.parentID ≠ "" then
      (h2, .error (ErrInvalidMessage ++ ":Cannot join sub-channel directly"))
    else if room.occupancy ≥ h2.maxUsersPerRoom then
      (h2, .error (ErrChannelFull ++ ":Room is full"))
    else if h2.isNameTakenInRoom room p.username then
      (h2, .error (ErrNameTaken ++ ":Username already taken in this room"))
    else
      let h3 := h2.updatePeer peerId
        (fun q => { q with name := p.username, roomID := room.id, mainRoomID := room.id })
      let room2 := room.addPeerId peerId
      let h4 := { h3 with rooms := mapInsert h3.rooms room.id room2 }
      let h5 := h4.updatePeer peerId
        (fun q => { q with sessionToken := newSessionToken, sessionCreatedAt := now })
      let h6 := { h5 with sessionMap := mapInsert h5.sessionMap newSessionToken peerId }
      (h6, .ok (room.id, newSessionToken))

/-- Embedding of `Hub.JoinRoom`.  Returns the updated hub and either an
error string (`CODE:message`) or the joined room's id with the session
token returned to the client.  The session-token branch transplants
transport and identity from the old peer object into the acting one and
does not issue a new token. -/
def joinRoom (h : Hub) (p : JoinPayload) (peerId : String) (now : Nat)
    (newSessionToken : String) : Hub × Except String (String × String) :=
  let sessionLookup : Hub × Option Peer :=
    if p.sessionToken = "" then (h, none)
    else
      match h.sessionMap.lookup p.sessionToken with
      | none => (h, none)
      | some existingId =>
        match h.lookupPeer existingId with
        | none => (h, none)
        | some existingPeer =>
          if now - existingPeer.sessionCreatedAt > twentyFourHoursMs then
            ({ h with sessionMap := mapErase h.sessionMap p.sessionToken }, none)
          else (h, some existingPeer)
  let h2 := sessionLookup.1
  match sessionLookup.2 with
  | some existingPeer =>
    let room? :=
      match h2.rooms.lookup existingPeer.roomID with
      | some r => some r
      | none => h2.rooms.lookup existingPeer.mainRoomID
    match room? with
    | some room =>
      let newConnPresent := ((h2.lookupPeer peerId).map (fun q => q.connPresent)).getD true
      let h3 := h2.updatePeer existingPeer.id
        (fun q => { q with connPresent := newConnPresent })
      let h4 := h3.updatePeer peerId (fun q =>
        { q with
            id := existingPeer.id, name := existingPeer.name,
            sessionToken := existingPeer.sessionToken,
            roomID := existingPeer.roomID, mainRoomID := existingPeer.mainRoomID,
            muted := existingPeer.muted,
            pcPresent := existingPeer.pcPresent,
            trackPresent := existingPeer.trackPresent })
      let h5 := h4.updatePeer existingPeer.id
        (fun q => { q with pcPresent := false, trackPresent := false })
      (h5, .ok (room.id, p.sessionToken))
    | none => joinRoomResolve h2 p peerId now newSessionToken
  | none => joinRoomResolve h2 p peerId now newSessionToken

/-- Go `Hub.sendSubCountdownIfNeeded` (the state bookkeeping; the 5-minute
timer it schedules is outside the modelled state). -/
def sendSubCountdownIfNeeded (sub : SubRoom) (now : Nat) : SubRoom :=
  let peerCount := sub.peerIds.length
  if peerCount = 1 then
    if sub.countdownExpiresAt = 0 then
      { sub with countdownExpiresAt := now + fiveMinutesMs, expiry := some now }
    else sub
  else
    let sub2 := { sub with countdownExpiresAt := 0 }
    if peerCount ≥ 2 then { sub2 with expiry := none } else sub2

/-- Embedding of `Hub.RemovePeer`: drop the session token, remove the peer
from its room (main, or a sub of its main room), close the media connection,
apply sub-countdown bookkeeping and immediate empty-sub cleanup, and clear
the peer's room ids.  Track removal and broadcasts are media/transport
effects outside the modelled state. -/
def removePeer (h : Hub) (peerId : String) (now : Nat) : Hub :=
  match h.lookupPeer peerId with
  | none => h
  | some peer =>
    if peer.roomID = "" then h
    else
      let h2 := { h with sessionMap := mapErase h.sessionMap peer.sessionToken }
      match h2.rooms.lookup peer.roomID with
      | some room =>
        let room2 := room.removePeerId peerId now
        let h3 := { h2 with rooms := mapInsert h2.rooms room.id room2 }
        let h4 := h3.updatePeer peerId
          (fun q => { q with pcPresent := false, trackPresent := false })
        h4.updatePeer peerId (fun q => { q with roomID := "", mainRoomID := "" })
      | none =>
        let h3 :=
          match h2.rooms.lookup peer.mainRoomID with
          | none => h2
          | some mainRoom =>
            match mainRoom.subChannels.lookup peer.roomID with
            | none => h2
            | some sub =>
              let sub2 := sub.removePeerId peerId now
              let sub3 := sendSubCountdownIfNeeded sub2 now
              let mainRoom2 :=
                if sub3.peerIds.isEmpty then
                  { mainRoom with subChannels := mapErase mainRoom.subChannels peer.roomID }
                else
                  { mainRoom with subChannels := mapInsert mainRoom.subChannels peer.roomID sub3 }
              { h2 with rooms := mapInsert h2.rooms mainRoom.id mainRoom2 }
        let h4 := h3.updatePeer peerId
          (fun q => { q with pcPresent := false, trackPresent := false })
        h4.updatePeer peerId (fun q => { q with roomID := "", mainRoomID := "" })

/-- Embedding of `Hub.HandleSubInvite`.  The 30-second invite timer is
outside the modelled state; the emitted messages are returned. -/
def handleSubInvite (h : Hub) (fromPeerId targetUserID channelName inviteId : String)
    (now : Nat) : Hub × List OutMsg :=
  match h.lookupPeer fromPeerId with
  | none => (h, [])
  | some fromPeer =>
    if fromPeer.roomID ≠ fromPeer.mainRoomID then
      (h, [.errorTo fromPeerId ErrAlreadyInSub "You are already in a sub-channel"])
    else
      match h.rooms.lookup fromPeer.mainRoomID with
      | none => (h, [.errorTo fromPeerId ErrInternalError "Room not found"])
      | some mainRoom =>
        match (if mainRoom.peerIds.contains targetUserID
               then h.lookupPeer targetUserID else none) with
        | none =>
          (h, [.errorTo fromPeerId ErrChannelNotFound "User not found in main channel"])
        | some targetPeer =>
          if targetPeer.roomID ≠ targetPeer.mainRoomID then
            (h, [.errorTo fromPeerId ErrAlreadyInSub "Target user is already in a sub-channel"])
          else
            let channelName2 := if channelName = "" then "Private" else channelName
            let invite : PendingInvite :=
              { id := inviteId, fromPeerId := fromPeerId, toPeerId := targetUserID,
                mainRoomId := mainRoom.id, channelName := channelName2,
                createdAt := now }
            ({ h with pendingInvites := mapInsert h.pendingInvites inviteId invite },
             [.inviteReqTo targetUserID inviteId fromPeer.id fromPeer.name channelName2])

/-- Embedding of `Hub.HandleSubResponse`.  The responder `peer` is only ever
used to address the `INVITE_EXPIRED` error when the invite is missing; on
accept, the sub-room is created and the invite's inviter and invitee are
moved, with their media connections closed first and recreated after. -/
def handleSubResponse (h : Hub) (responderId inviteID : String) (accepted : Bool)
    (subID : String) (now : Nat) : Hub × List OutMsg :=
  match h.pendingInvites.lookup inviteID with
  | none => (h, [.errorTo responderId ErrInviteExpired "Invite has expired or was not found"])
  | some invite =>
    let h2 := { h with pendingInvites := mapErase h.pendingInvites inviteID }
    if !accepted then
      (h2, [.inviteExpiredTo invite.fromPeerId inviteID "declined"])
    else
      match h2.rooms.lookup invite.mainRoomId with
      | none => (h2, [])
      | some mainRoom =>
        let subRoom : SubRoom :=
          { id := subID, name := invite.channelName, fullName := mainRoom.fullName,
            parentID := mainRoom.id, passwordHash := mainRoom.passwordHash,
            createdAt := 0, peerIds := [], chatHistory := [], expiry := none,
            countdownExpiresAt := 0 }
        let h3 := h2.updatePeer invite.fromPeerId
          (fun q => { q with pcPresent := false, trackPresent := false })
        let h4 := h3.updatePeer invite.toPeerId
          (fun q => { q with pcPresent := false, trackPresent := false })
        let mainRoom2 :=
          (mainRoom.removePeerId invite.fromPeerId now).removePeerId invite.toPeerId now
        let mainRoom3 :=
          { mainRoom2 with subChannels := mapInsert mainRoom2.subChannels subID subRoom }
        let h5 := { h4 with rooms := mapInsert h4.rooms mainRoom.id mainRoom3 }
        let h6 := h5.updatePeer invite.fromPeerId (fun q => { q with roomID := subID })
        let subRoom2 := subRoom.addPeerId invite.fromPeerId
        let h7 := h6.updatePeer invite.toPeerId (fun q => { q with roomID := subID })
        let subRoom3 := subRoom2.addPeerId invite.toPeerId
        let mainRoom4 :=
          { mainRoom3 with subChannels := mapInsert mainRoom3.subChannels subID subRoom3 }
        let h8 := { h7 with rooms := mapInsert h7.rooms mainRoom.id mainRoom4 }
        let h9 := h8.updatePeer invite.fromPeerId
          (fun q => { q with pcPresent := true, trackPresent := true })
        let h10 := h9.updatePeer invite.toPeerId
          (fun q => { q with pcPresent := true, trackPresent := true })
        (h10, [])

/-! ## Concrete fixtures used by counterexamples and witnesses -/

def suffixFixed : Nat → String := fun _ => "#1234"

def emptyHub : Hub :=
  { rooms := [], roomsByName := [], inviteMap := [], sessionMap := [],
    pendingInvites := [], peers := [], roomCreatesPerIP := [],
    maxUsersPerRoom := 25, maxTotalRooms := 100, chatHistorySize := 200 }

def freshPeer (pid : String) : Peer :=
  { id := pid, sessionToken := "", sessionCreatedAt := 0, name := "",
    connPresent := true, pcPresent := false, trackPresent := false,
    roomID := "", mainRoomID := "", muted := false }

/-- Peer "A": in main room "R" with session token "T" issued at time 0. -/
def peerAlice : Peer :=
  { id := "A", sessionToken := "T", sessionCreatedAt := 0, name := "a",
    connPresent := true, pcPresent := true, trackPresent := true,
    roomID := "R", mainRoomID := "R", muted := false }

def roomLobby : Room :=
  { id := "R", name := "Lobby", fullName := "Lobby#1234", inviteToken := "I",
    parentID := "", passwordHash := bcryptGenerate "secret1", createdAt := 0,
    peerIds := ["A"], subChannels := [], chatHistory := [], expiry := none,
    countdownExpiresAt := 0 }

/-- Hub for the reconnect scenario: peer "A" in room "R" with live session
token "T"; peer "B" is the fresh transport that will try to reconnect. -/
def hubReconnect : Hub :=
  { rooms := [("R", roomLobby)], roomsByName := [("Lobby#1234", "R")],
    inviteMap := [("I", "R")], sessionMap := [("T", "A")],
    pendingInvites := [], peers := [("A", peerAlice), ("B", freshPeer "B")],
    roomCreatesPerIP := [], maxUsersPerRoom := 25, maxTotalRooms := 100,
    chatHistorySize := 200 }

/-- The reconnect attempt: transport of "A" closed at t=1000 ms (the removal
path runs), then a new transport "B" joins with "A"'s session token at
t=2000 ms, well inside 24 h of the token's creation. -/
def joinAfterRemoval : Hub × Except String (String × String) :=
  joinRoom (removePeer hubReconnect "A" 1000)
    { username := "a", channelName := "", password := "", inviteToken := "",
      sessionToken := "T" }
    "B" 2000 "T2"

/-- Hub at the room cap: one existing room, `maxTotalRooms = 1`, with a
fresh creator peer "C". -/
def hubAtRoomCap : Hub :=
  { rooms := [("R", roomLobby)], roomsByName := [("Lobby#1234", "R")],
    inviteMap := [("I", "R")], sessionMap := [("T", "A")],
    pendingInvites := [], peers := [("A", peerAlice), ("C", freshPeer "C")],
    roomCreatesPerIP := [], maxUsersPerRoom := 25, maxTotalRooms := 1,
    chatHistorySize := 200 }

def createAtCap : Hub × List OutMsg :=
  handleCreate hubAtRoomCap "C"
    { username := "c", channelName := "Den", password := "secret2" }
    "1.2.3.4" 5000 suffixFixed "R2" "I2" "S2"

/-- Sub-invite scenario: main room "M" holds "A"; its sub-channel "S" holds
"B" (so "B" belongs to main room "M" but is currently in a sub). -/
def subWarRoom : SubRoom :=
  { id := "S", name := "war-room", fullName := "Lobby#1234", parentID := "M",
    passwordHash := bcryptGenerate "secret1", createdAt := 0, peerIds := ["B"],
    chatHistory := [], expiry := none, countdownExpiresAt := 0 }

def peerMainA : Peer :=
  { id := "A", sessionToken := "TA", sessionCreatedAt := 0, name := "a",
    connPresent := true, pcPresent := true, trackPresent := true,
    roomID := "M", mainRoomID := "M", muted := false }

def peerSubB : Peer :=
  { id := "B", sessionToken := "TB", sessionCreatedAt := 0, name := "b",
    connPresent := true, pcPresent := true, trackPresent := true,
    roomID := "S", mainRoomID := "M", muted := false }

def roomMainM : Room :=
  { id := "M", name := "Lobby", fullName := "Lobby#1234", inviteToken := "IM",
    parentID := "", passwordHash := bcryptGenerate "secret1", createdAt := 0,
    peerIds := ["A"], subChannels := [("S", subWarRoom)], chatHistory := [],
    expiry := none, countdownExpiresAt := 0 }

def hubSubInvite : Hub :=
  { rooms := [("M", roomMainM)], roomsByName := [("Lobby#1234", "M")],
    inviteMap := [("IM", "M")], sessionMap := [("TA", "A"), ("TB", "B")],
    pendingInvites := [], peers := [("A", peerMainA), ("B", peerSubB)],
    roomCreatesPerIP := [], maxUsersPerRoom := 25, maxTotalRooms := 100,
    chatHistorySize := 200 }

/-- Sub-response scenario: "A" invited "B" in main room "M"; "C" is an
unrelated peer in the same main room.  The invite "INV" is pending. -/
def peerMainB : Peer :=
  { peerSubB with roomID := "M" }

def peerMainC : Peer :=
  { id := "C", sessionToken := "TC", sessionCreatedAt := 0, name := "c",
    connPresent := true, pcPresent := true, trackPresent := true,
    roomID := "M", mainRoomID := "M", muted := false }

def roomMainM3 : Room :=
  { roomMainM with peerIds := ["A", "B", "C"], subChannels := [] }

def inviteAB : PendingInvite :=
  { id := "INV", fromPeerId := "A", toPeerId := "B", mainRoomId := "M",
    channelName := "war-room", createdAt := 0 }

def hubSubResponse : Hub :=
  { rooms := [("M", roomMainM3)], roomsByName := [("Lobby#1234", "M")],
    inviteMap := [("IM", "M")],
    sessionMap := [("TA", "A"), ("TB", "B"), ("TC", "C")],
    pendingInvites := [("INV", inviteAB)],
    peers := [("A", peerMainA), ("B", peerMainB), ("C", peerMainC)],
    roomCreatesPerIP := [], maxUsersPerRoom := 25, maxTotalRooms := 100,
    chatHistorySize := 200 }

/-- Join-capacity scenario: main room "M" with one main occupant and one sub
occupant, `maxUsersPerRoom = 2`, so the room is exactly at capacity. -/
def hubJoinFull : Hub :=
  { rooms := [("M", roomMainM)], roomsByName := [("Lobby#1234", "M")],
    inviteMap := [("IM", "M")], sessionMap := [("TA", "A"), ("TB", "B")],
    pendingInvites := [],
    peers := [("A", peerMainA), ("B", peerSubB), ("D", freshPeer "D")],
    roomCreatesPerIP := [], maxUsersPerRoom := 2, maxTotalRooms := 100,
    chatHistorySize := 200 }

def joinFullPayload : JoinPayload :=
  { username := "d", channelName := "", password := "", inviteToken := "IM",
    sessionToken := "" }

/-- Signaling fixture: media connection without a remote description, peer
at epoch 5, offerSeq 3, with an open signaling-ready handle. -/
def mcFix : MediaConnection :=
  { remoteDescription := none, candidates := [] }

def sigPeerFix : SigPeer :=
  { pc := some mcFix, epoch := 5, offerSeq := 3, signalingReadyOpen := true }

/-- Signaling fixture with a remote description already set. -/
def mcWithRD : MediaConnection :=
  { remoteDescription := some "v=0", candidates := [] }

def sigPeerWithRD : SigPeer :=
  { pc := some mcWithRD, epoch := 5, offerSeq := 3, signalingReadyOpen := true }

/-- Connection state with an exhausted token bucket and no violations. -/
def connNoTokens : ConnState :=
  { limiter := { tokens := 0, lastReset := 0, maxRate := 30 },
    violations := 0, closed := false }

/-- Connection state with an exhausted token bucket and 49 violations. -/
def connAtThreshold : ConnState :=
  { limiter := { tokens := 0, lastReset := 0, maxRate := 30 },
    violations := 49, closed := false }

/-! ## Shared helper lemmas -/

theorem lookup_mapInsert_self {α : Type} (m : List (String × α)) (k : String) (v : α) :
    (mapInsert m k v).lookup k = some v := by
  induction m with
  | nil => simp [mapInsert, List.lookup]
  | cons e rest ih =>
    obtain ⟨k2, v2⟩ := e
    by_cases hk : k2 = k
    · simp [mapInsert, hk, List.lookup]
    · have hb : (k == k2) = false := beq_eq_false_iff_ne.mpr (Ne.symm hk)
      simp [mapInsert, hk, List.lookup, hb, ih]

/-! ## Claim theorems -/

/-- C10: the WebSocket origin check (`upgrader.CheckOrigin`) admits every
upgrade request whose Origin header is empty, for every allow-list
configuration and every Host header; the allow-list and same-origin
comparisons are only reached for a non-empty Origin. -/
theorem c10_empty_origin_admitted (allowedOrigins : List String) (host : String) :
    checkOrigin allowedOrigins "" host = true := by
  simp [checkOrigin]

theorem addChatMessage_drop (l : List ChatMessage) (m : ChatMessage) (cap : Nat) :
    addChatMessage (l.drop (l.length - cap)) m cap =
      (l ++ [m]).drop ((l ++ [m]).length - cap) := by
  unfold addChatMessage
  have hlen : (l.drop (l.length - cap)).length = l.length - (l.length - cap) :=
    List.length_drop _ _
  have hlapp : (l ++ [m]).length = l.length + 1 := by simp
  by_cases hlt : l.length < cap
  · have h0 : l.length - cap = 0 := by omega
    have h2 : ¬ (l.drop (l.length - cap) ++ [m]).length > cap := by
      rw [List.length_append, hlen]
      simp only [List.length_singleton]
      omega
    rw [if_neg h2, hlapp]
    have h1 : l.length + 1 - cap = 0 := by omega
    rw [h0, h1, List.drop_zero, List.drop_zero]
  · by_cases hcap0 : cap = 0
    · subst hcap0
      have h2 : (l.drop (l.length - 0) ++ [m]).length > 0 := by simp
      rw [if_pos h2]
      have h3 : l.drop (l.length - 0) = [] := by simp
      rw [h3]
      simp
    · have hge : cap ≤ l.length := by omega
      have hdl : (l.drop (l.length - cap)).length = cap := by omega
      have h2 : (l.drop (l.length - cap) ++ [m]).length > cap := by
        rw [List.length_append, hdl]
        simp
      rw [if_pos h2]
      have hidx : (l.drop (l.length - cap) ++ [m]).length - cap = 1 := by
        rw [List.length_append, hdl]
        simp
      rw [hidx]
      have hL : (l.drop (l.length - cap) ++ [m]).drop 1 =
          (l.drop (l.length - cap)).drop 1 ++ [m] :=
        List.drop_append_of_le_length (by omega)
      rw [hL, List.drop_drop]
      have hR : (l ++ [m]).drop ((l ++ [m]).length - cap) =
          l.drop ((l ++ [m]).length - cap) ++ [m] :=
        List.drop_append_of_le_length (by rw [hlapp]; omega)
      rw [hR]
      have hix2 : l.length - cap + 1 = (l ++ [m]).length - cap := by
        rw [hlapp]; omega
      rw [hix2]

/-- C7: for every capacity and every sequence of appended chat messages,
the resulting history is exactly the newest messages in append order (the
tail of the append sequence), and its length never exceeds the capacity.
Since this holds for every append sequence, it holds for every prefix, i.e.
the bound is maintained at every step. -/
theorem c7_chat_history_ring (cap : Nat) (msgs : List ChatMessage) :
    chatHistoryAfter msgs cap = msgs.drop (msgs.length - cap) ∧
    (chatHistoryAfter msgs cap).length ≤ cap := by
  have key : chatHistoryAfter msgs cap = msgs.drop (msgs.length - cap) := by
    induction msgs using List.reverseRecOn with
    | nil => simp [chatHistoryAfter]
    | append_singleton l m ih =>
      unfold chatHistoryAfter at ih ⊢
      rw [List.foldl_append]
      simp only [List.foldl_cons, List.foldl_nil]
      rw [ih]
      exact addChatMessage_drop l m cap
  refine ⟨key, ?_⟩
  rw [key]
  have := List.length_drop (msgs.length - cap) msgs
  omega

/-- C2: an incoming answer whose epoch differs from the peer's current
`Epoch` or whose seq differs from the current `OfferSeq` is discarded
without touching the peer's state (in particular without setting the remote
description); an answer with exactly matching (epoch, seq) on a live media
connection sets the remote description and closes (signals) the
signaling-ready handle. -/
theorem c2_answer_epoch_seq_discipline (p : SigPeer) (sdp : String) (seq epoch : Nat) :
    ((epoch ≠ p.epoch ∨ seq ≠ p.offerSeq) →
      (handleAnswerES p sdp seq epoch).2 = p ∧
      (handleAnswerES p sdp seq epoch).1 ≠ .accepted) ∧
    (∀ pc, p.pc = some pc → epoch = p.epoch → seq = p.offerSeq →
      handleAnswerES p sdp seq epoch =
        (.accepted,
          { p with
              pc := some { pc with remoteDescription := some sdp },
              signalingReadyOpen := false })) := by
  constructor
  · intro hmis
    match hpc : p.pc with
    | none => simp [handleAnswerES, hpc]
    | some pc =>
      rcases hmis with hep | hs
      · simp [handleAnswerES, hpc, hep]
      · by_cases hep2 : epoch = p.epoch
        · simp [handleAnswerES, hpc, hep2, hs]
        · simp [handleAnswerES, hpc, hep2]
  · intro pc hpc hep hseq
    simp [handleAnswerES, hpc, hep, hseq]

/-- C2 witness: at a concrete peer (epoch 5, offerSeq 3), a mismatching
answer (epoch 4) leaves the state unchanged, and the matching answer sets
the remote description and closes the ready handle. -/
theorem c2_answer_witness :
    (handleAnswerES sigPeerFix "v=0" 3 4).2 = sigPeerFix ∧
    handleAnswerES sigPeerFix "v=0" 3 5 =
      (.accepted,
        { sigPeerFix with
            pc := some { mcFix with remoteDescription := some "v=0" },
            signalingReadyOpen := false }) :=
  ⟨((c2_answer_epoch_seq_discipline sigPeerFix "v=0" 3 4).1 (Or.inl (by decide))).1,
   (c2_answer_epoch_seq_discipline sigPeerFix "v=0" 3 5).2 mcFix rfl rfl rfl⟩

/-- C4 counterexample: an ICE candidate with matching epoch and non-future
seq arriving while the media connection has no remote description is not
buffered — the add fails, the peer state is unchanged, and after the remote
description is subsequently set the connection's candidate list is still
empty.  The candidate is lost, not "buffered and then added". -/
theorem c4_candidate_not_buffered_counterexample :
    (handleICECandidateES sigPeerFix "cand0" "0" (some 0) 3 5).1 =
      .addFailedNoRemoteDescription ∧
    (handleICECandidateES sigPeerFix "cand0" "0" (some 0) 3 5).2 = sigPeerFix ∧
    ((handleAnswerES
        (handleICECandidateES sigPeerFix "cand0" "0" (some 0) 3 5).2
        "v=0" 3 5).2.pc.map (fun pc => pc.candidates)) = some [] := by
  decide

/-- C4 amended: an ICE candidate with matching epoch and non-future seq is
handed to `AddICECandidate` immediately.  When the connection already has a
remote description it is added right away; when it does not, the add fails
and the candidate is dropped — the server keeps no buffer. -/
theorem c4_candidate_applied_immediately (p : SigPeer) (cand sdpMid : String)
    (mline : Option Int) (seq epoch : Nat) (pc : MediaConnection)
    (hpc : p.pc = some pc) (hep : epoch = p.epoch) (hseq : seq ≤ p.offerSeq) :
    (pc.remoteDescription = none →
      handleICECandidateES p cand sdpMid mline seq epoch =
        (.addFailedNoRemoteDescription, p)) ∧
    (∀ rd, pc.remoteDescription = some rd →
      handleICECandidateES p cand sdpMid mline seq epoch =
        (.added,
          { p with
              pc := some
                { pc with
                    candidates := pc.candidates ++
                      [{ candidate := cand,
                         sdpMid := if sdpMid = "" then none else some sdpMid,
                         sdpMLineIndex := mline.map (fun v => (v % 65536).toNat) }] } })) := by
  have hgt : ¬ seq > p.offerSeq := by omega
  constructor
  · intro hrd
    simp [handleICECandidateES, hpc, hep, hgt, addICECandidate, hrd]
  · intro rd hrd
    simp [handleICECandidateES, hpc, hep, hgt, addICECandidate, hrd]

/-- C4 witness: at concrete peers (epoch 5, offerSeq 3) a matching candidate
is dropped when no remote description is set, and applied immediately when
one is. -/
theorem c4_candidate_witness :
    handleICECandidateES sigPeerFix "cand0" "" none 3 5 =
      (.addFailedNoRemoteDescription, sigPeerFix) ∧
    handleICECandidateES sigPeerWithRD "cand0" "" none 3 5 =
      (.added,
        { sigPeerWithRD with
            pc := some
              { mcWithRD with
                  candidates := mcWithRD.candidates ++
                    [{ candidate := "cand0", sdpMid := none, sdpMLineIndex := none }] } }) :=
  ⟨(c4_candidate_applied_immediately sigPeerFix "cand0" "" none 3 5 mcFix rfl rfl
      (by decide)).1 rfl,
   (c4_candidate_applied_immediately sigPeerWithRD "cand0" "" none 3 5 mcWithRD rfl rfl
      (by decide)).2 "v=0" rfl⟩

theorem dispatchRun_closed (s : ConnState) (ts : List Nat) (hcl : s.closed = true) :
    dispatchRun s ts = [] := by
  cases ts with
  | nil => rfl
  | cons t ts => simp [dispatchRun, hcl]

theorem dispatchRun_processed_le (t0 : Nat) :
    ∀ (ts : List Nat) (s : ConnState), s.limiter.lastReset = t0 →
      (∀ t ∈ ts, t < t0 + oneSecondMs) →
      ((dispatchRun s ts).count MsgAction.processed) ≤ s.limiter.tokens.toNat := by
  intro ts
  induction ts with
  | nil => intro s _ _; simp [dispatchRun]
  | cons t ts ih =>
    intro s hreset hts
    by_cases hcl : s.closed = true
    · simp [dispatchRun, hcl]
    · have ht : t < t0 + oneSecondMs := hts t (List.mem_cons_self _ _)
      have hnorefill : ¬ (oneSecondMs ≤ t - s.limiter.lastReset) := by
        rw [hreset]
        simp only [oneSecondMs] at ht ⊢
        omega
      have hts2 : ∀ u ∈ ts, u < t0 + oneSecondMs :=
        fun u hu => hts u (List.mem_cons_of_mem _ hu)
      rw [dispatchRun, if_neg hcl]
      by_cases htok : s.limiter.tokens ≤ 0
      · have hstep : dispatchStep s t =
            (if 50 ≤ s.violations + 1 then
              (.closedPolicyViolation,
                { limiter := s.limiter, violations := s.violations + 1, closed := true })
             else
              (.rateLimitError,
                { limiter := s.limiter, violations := s.violations + 1, closed := s.closed })) := by
          simp [dispatchStep, RateLimiter.allowAt, hnorefill, htok]
        by_cases hv : 50 ≤ s.violations + 1
        · rw [hstep, if_pos hv]
          rw [dispatchRun_closed _ ts rfl]
          simp
        · rw [hstep, if_neg hv]
          have hrec := ih ⟨s.limiter, s.violations + 1, s.closed⟩ hreset hts2
          simp only [List.count_cons]
          simp only [show (MsgAction.rateLimitError == MsgAction.processed) = false from rfl]
          simpa using hrec
      · have hstep : dispatchStep s t =
            (.processed,
              { s with limiter := { s.limiter with tokens := s.limiter.tokens - 1 } }) := by
          simp [dispatchStep, RateLimiter.allowAt, hnorefill, htok]
        rw [hstep]
        have hrec := ih { s with limiter := { s.limiter with tokens := s.limiter.tokens - 1 } }
          hreset hts2
        simp only [List.count_cons]
        simp only [show (MsgAction.processed == MsgAction.processed) = true from rfl]
        simp only [if_pos]
        simp only [ConnState.mk.injEq] at hrec ⊢
        omega

/-- C8: the per-connection message rate limiter admits at most 30 messages
within any window starting at the limiter's reset time and shorter than one
second (the bucket refills each second); every over-limit message below the
violation threshold is answered with an inline rate-limit error and
increments the violation counter; when the counter reaches 50 the
connection is closed with a protocol-violation close code instead of being
answered. -/
theorem c8_rate_limit_discipline (t0 : Nat) (ts : List Nat) (s : ConnState) (now : Nat) :
    ((∀ t ∈ ts, t < t0 + oneSecondMs) →
      ((dispatchRun (freshConnState t0) ts).count MsgAction.processed) ≤ 30) ∧
    ((s.limiter.allowAt now).1 = false → s.violations + 1 < 50 →
      dispatchStep s now =
        (.rateLimitError,
          { limiter := (s.limiter.allowAt now).2, violations := s.violations + 1,
            closed := s.closed })) ∧
    ((s.limiter.allowAt now).1 = false → 50 ≤ s.violations + 1 →
      dispatchStep s now =
        (.closedPolicyViolation,
          { limiter := (s.limiter.allowAt now).2, violations := s.violations + 1,
            closed := true })) := by
  refine ⟨?_, ?_, ?_⟩
  · intro hts
    have := dispatchRun_processed_le t0 ts (freshConnState t0) rfl hts
    simpa [freshConnState, newRateLimiter] using this
  · intro hfalse hv
    have hnv : ¬ 50 ≤ s.violations + 1 := by omega
    simp [dispatchStep, hfalse, hnv]
  · intro hfalse hv
    simp [dispatchStep, hfalse, hv]

/-- C8 witness: 40 messages in the same second admit at most 30; with an
exhausted bucket, the first over-limit message yields an inline rate-limit
error and violation 1, and the 50th violation closes the connection. -/
theorem c8_rate_limit_witness :
    ((dispatchRun (freshConnState 0) (List.replicate 40 0)).count MsgAction.processed) ≤ 30 ∧
    dispatchStep connNoTokens 5 =
      (.rateLimitError,
        { limiter := (connNoTokens.limiter.allowAt 5).2, violations := 1, closed := false }) ∧
    dispatchStep connAtThreshold 5 =
      (.closedPolicyViolation,
        { limiter := (connAtThreshold.limiter.allowAt 5).2, violations := 50, closed := true }) :=
  ⟨(c8_rate_limit_discipline 0 (List.replicate 40 0) connNoTokens 5).1 (by decide),
   (c8_rate_limit_discipline 0 [] connNoTokens 5).2.1 (by decide) (by decide),
   (c8_rate_limit_discipline 0 [] connAtThreshold 5).2.2 (by decide) (by decide)⟩

/-- C1 (code bug): `RemovePeer` deletes the session token from the session
map (hub.go line 322) and clears the peer's room ids, so after the removal
path runs for a closed transport, a join carrying that session token well
within 24 h of its creation does not reconnect: the token is gone from the
map and, with no channel name or invite token, the join fails with
`INVALID_MESSAGE` instead of restoring the peer's id, name and room. -/
theorem c1_reconnect_after_removal_fails :
    (removePeer hubReconnect "A" 1000).sessionMap.lookup "T" = none ∧
    joinAfterRemoval.2 =
      Except.error (ErrInvalidMessage ++ ":Must provide channelName or inviteToken") ∧
    2000 - peerAlice.sessionCreatedAt ≤ twentyFourHoursMs := by
  refine ⟨by decide, rfl, by decide⟩

/-- C3 counterexample: with the hub at its room cap, a valid create request
is rejected, but the error envelope the creating client receives carries
code `INTERNAL_ERROR` — `handleCreate` passes the Hub's whole
`SERVER_FULL:`-prefixed error string as the message without splitting the
code off (unlike `handleJoin`).  No room is created. -/
theorem c3_server_full_code_counterexample :
    createAtCap.2 =
      [.errorTo "C" ErrInternalError
        "SERVER_FULL:Server has reached the maximum number of rooms"] ∧
    ErrInternalError ≠ ErrServerFull ∧
    createAtCap.1.rooms = hubAtRoomCap.rooms := by
  refine ⟨by decide, by decide, by decide⟩

/-- C3 amended: when the total number of rooms is at or above the
configured max-rooms limit, a valid create request is rejected and no room
is created, and the client receives an error envelope whose code is
`INTERNAL_ERROR` and whose message is the Hub's
`SERVER_FULL:`-prefixed error string. -/
theorem c3_create_at_room_cap (h : Hub) (peerId : String) (p : CreatePayload)
    (ip : String) (now : Nat) (suffixes : Nat → String)
    (roomID inviteToken sessionToken : String)
    (hu : ¬ validateUsername p.username = "")
    (hc : validateChannelName p.channelName = true)
    (hpw : validatePassword p.password = true)
    (hcap : h.rooms.length ≥ h.maxTotalRooms) :
    (handleCreate h peerId p ip now suffixes roomID inviteToken sessionToken).2 =
      [.errorTo peerId ErrInternalError
        (ErrServerFull ++ ":Server has reached the maximum number of rooms")] ∧
    (handleCreate h peerId p ip now suffixes roomID inviteToken sessionToken).1.rooms =
      h.rooms := by
  constructor
  · simp [handleCreate, createRoom, Hub.updatePeer, hu, hc, hpw, ge_iff_le, hcap]
  · simp [handleCreate, createRoom, Hub.updatePeer, hu, hc, hpw, ge_iff_le, hcap]

/-- C3 witness: the amended statement applied to the concrete at-cap hub. -/
theorem c3_create_at_room_cap_witness :
    (handleCreate hubAtRoomCap "C"
        { username := "c", channelName := "Den", password := "secret2" }
        "1.2.3.4" 5000 suffixFixed "R2" "I2" "S2").2 =
      [.errorTo "C" ErrInternalError
        (ErrServerFull ++ ":Server has reached the maximum number of rooms")] ∧
    (handleCreate hubAtRoomCap "C"
        { username := "c", channelName := "Den", password := "secret2" }
        "1.2.3.4" 5000 suffixFixed "R2" "I2" "S2").1.rooms = hubAtRoomCap.rooms :=
  c3_create_at_room_cap hubAtRoomCap "C"
    { username := "c", channelName := "Den", password := "secret2" }
    "1.2.3.4" 5000 suffixFixed "R2" "I2" "S2"
    (by decide) (by decide) (by decide) (by decide)

/-- C5 counterexample: "B" belongs to main room "M" but currently sits in
its sub-channel "S"; a sub-invite from "A" (in the main room) targeting "B"
is rejected with `CHANNEL_NOT_FOUND` ("User not found in main channel"),
not `ALREADY_IN_SUB`, because a sub occupant is absent from the main room's
member map. -/
theorem c5_sub_invite_counterexample :
    (handleSubInvite hubSubInvite "A" "B" "den" "INV1" 0).2 =
      [.errorTo "A" ErrChannelNotFound "User not found in main channel"] ∧
    ErrChannelNotFound ≠ ErrAlreadyInSub ∧
    (handleSubInvite hubSubInvite "A" "B" "den" "INV1" 0).1 = hubSubInvite := by
  refine ⟨by decide, by decide, by decide⟩

/-- C5 amended: for every sub-invite whose sender is in the main room and
whose target belongs to the same main room but is currently in one of its
sub-channels (hence absent from the main room's member map), the invite is
rejected and the sender receives an error envelope with code
`CHANNEL_NOT_FOUND`; no pending invite is created. -/
theorem c5_sub_invite_target_in_sub (h : Hub)
    (fromPeerId targetUserID channelName inviteId : String) (now : Nat)
    (fromPeer : Peer) (mainRoom : Room)
    (hfrom : h.lookupPeer fromPeerId = some fromPeer)
    (hinmain : fromPeer.roomID = fromPeer.mainRoomID)
    (hroom : h.rooms.lookup fromPeer.mainRoomID = some mainRoom)
    (hinsub : mainRoom.subChannels.any (fun s => s.2.peerIds.contains targetUserID) = true)
    (hnotmain : mainRoom.peerIds.contains targetUserID = false) :
    handleSubInvite h fromPeerId targetUserID channelName inviteId now =
      (h, [.errorTo fromPeerId ErrChannelNotFound "User not found in main channel"]) := by
  have hmem : targetUserID ∉ mainRoom.peerIds := by
    simpa using hnotmain
  simp [handleSubInvite, hfrom, hinmain, hroom, hmem]

/-- C5 witness: the amended statement at the concrete hub with "B" in the
sub-channel of "A"'s main room. -/
theorem c5_sub_invite_target_in_sub_witness :
    handleSubInvite hubSubInvite "A" "B" "" "INV2" 5 =
      (hubSubInvite, [.errorTo "A" ErrChannelNotFound "User not found in main channel"]) :=
  c5_sub_invite_target_in_sub hubSubInvite "A" "B" "" "INV2" 5 peerMainA roomMainM
    (by decide) (by decide) (by decide) (by decide) (by decide)

/-- C9: `HandleSubResponse` never checks that the responder is the invitee:
when the invite exists, the outcome is the same for any responding peer;
an accepted response moves the invite's original inviter and invitee into
the new sub-room, and a decline removes the invite and notifies the
inviter — regardless of who responded. -/
theorem c9_sub_response_ignores_responder (h : Hub) (r1 r2 inviteID : String)
    (accepted : Bool) (subID : String) (now : Nat)
    (invite : PendingInvite) (mainRoom : Room)
    (hinv : h.pendingInvites.lookup inviteID = some invite) :
    handleSubResponse h r1 inviteID accepted subID now =
      handleSubResponse h r2 inviteID accepted subID now ∧
    (accepted = true →
      h.rooms.lookup invite.mainRoomId = some mainRoom →
      mainRoom.id = invite.mainRoomId →
      invite.fromPeerId ≠ invite.toPeerId →
      (((handleSubResponse h r1 inviteID accepted subID now).1.rooms.lookup
          invite.mainRoomId).bind (fun m => m.subChannels.lookup subID)).map
        (fun s => s.peerIds) = some [invite.fromPeerId, invite.toPeerId]) ∧
    (accepted = false →
      (handleSubResponse h r1 inviteID accepted subID now).1.pendingInvites =
        mapErase h.pendingInvites inviteID ∧
      (handleSubResponse h r1 inviteID accepted subID now).2 =
        [.inviteExpiredTo invite.fromPeerId inviteID "declined"]) := by
  refine ⟨?_, ?_, ?_⟩
  · simp only [handleSubResponse, hinv]
  · intro hacc hroom hid hne
    subst hacc
    have hbe : (invite.toPeerId == invite.fromPeerId) = false :=
      beq_eq_false_iff_ne.mpr (Ne.symm hne)
    simp only [handleSubResponse, hinv, hroom, Bool.not_true, if_neg]
    simp [Hub.updatePeer, SubRoom.addPeerId, hid, hroom, lookup_mapInsert_self, hbe,
      List.contains]
    exact Ne.symm hne
  · intro hacc
    subst hacc
    simp [handleSubResponse, hinv]

/-- C9 witness: with invite "INV" (inviter "A", invitee "B") pending, the
unrelated peer "C" accepting produces exactly the same outcome as the
invitee "B" accepting, and moves "A" and "B" into the new sub-room. -/
theorem c9_sub_response_witness :
    handleSubResponse hubSubResponse "C" "INV" true "S2" 10 =
      handleSubResponse hubSubResponse "B" "INV" true "S2" 10 ∧
    (((handleSubResponse hubSubResponse "C" "INV" true "S2" 10).1.rooms.lookup "M").bind
        (fun m => m.subChannels.lookup "S2")).map (fun s => s.peerIds) =
      some ["A", "B"] :=
  have hthm := c9_sub_response_ignores_responder hubSubResponse "C" "B" "INV" true "S2" 10
    inviteAB roomMainM3 rfl
  ⟨hthm.1, hthm.2.1 rfl rfl rfl (by decide)⟩

/-- C6: for a join resolved by invite token or by channel name + password
into a main room, occupancy is the number of peers in the main room plus
the sum over its sub-rooms, the join is rejected with `CHANNEL_FULL`
exactly when that occupancy is ≥ max-users-per-room, and every rejected
join leaves room membership unchanged. -/
theorem c6_join_capacity (h : Hub) (p : JoinPayload) (peerId : String) (now : Nat)
    (tok : String) (rid : String) (room : Room)
    (hsess : p.sessionToken = "")
    (hres : (p.inviteToken ≠ "" ∧ h.inviteMap.lookup p.inviteToken = some rid ∧
              h.rooms.lookup rid = some room ∧ now - room.createdAt ≤ sevenDaysMs) ∨
            (p.inviteToken = "" ∧ p.channelName ≠ "" ∧
              h.roomsByName.lookup p.channelName = some rid ∧
              h.rooms.lookup rid = some room ∧ p.password ≠ "" ∧
              bcryptCompare room.passwordHash p.password = true))
    (hmain : room.parentID = "") :
    ((joinRoom h p peerId now tok).2 =
        .error (ErrChannelFull ++ ":Room is full") ↔
      room.occupancy ≥ h.maxUsersPerRoom) ∧
    (∀ e, (joinRoom h p peerId now tok).2 = .error e →
      (joinRoom h p peerId now tok).1.rooms = h.rooms) := by
  have hjr : joinRoom h p peerId now tok = joinRoomResolve h p peerId now tok := by
    simp [joinRoom, hsess]
  rw [hjr]
  have hnefull : (ErrNameTaken ++ ":Username already taken in this room") ≠
      (ErrChannelFull ++ ":Room is full") := by decide
  rcases hres with ⟨hit, hlook, hroomx, hfresh⟩ | ⟨hit0, hcn, hlook, hroomx, hpw, hcmp⟩
  · have hfresh2 : ¬ (now - room.createdAt > sevenDaysMs) := by omega
    by_cases hocc : room.occupancy ≥ h.maxUsersPerRoom
    · constructor
      · simp [joinRoomResolve, hit, hlook, hroomx, hfresh2, hmain, hocc]
      · intro e he
        simp [joinRoomResolve, hit, hlook, hroomx, hfresh2, hmain, hocc]
    · by_cases hname : h.isNameTakenInRoom room p.username = true
      · constructor
        · simp [joinRoomResolve, hit, hlook, hroomx, hfresh2, hmain, hocc, hname, hnefull]
        · intro e he
          simp [joinRoomResolve, hit, hlook, hroomx, hfresh2, hmain, hocc, hname]
      · constructor
        · simp [joinRoomResolve, hit, hlook, hroomx, hfresh2, hmain, hocc, hname]
        · intro e he
          simp [joinRoomResolve, hit, hlook, hroomx, hfresh2, hmain, hocc, hname] at he
  · have hpw2 : ¬ (p.password = "") := hpw
    by_cases hocc : room.occupancy ≥ h.maxUsersPerRoom
    · constructor
      · simp [joinRoomResolve, hit0, hcn, hlook, hroomx, hpw2, hcmp, hmain, hocc]
      · intro e he
        simp [joinRoomResolve, hit0, hcn, hlook, hroomx, hpw2, hcmp, hmain, hocc]
    · by_cases hname : h.isNameTakenInRoom room p.username = true
      · constructor
        · simp [joinRoomResolve, hit0, hcn, hlook, hroomx, hpw2, hcmp, hmain, hocc, hname,
            hnefull]
        · intro e he
          simp [joinRoomResolve, hit0, hcn, hlook, hroomx, hpw2, hcmp, hmain, hocc, hname]
      · constructor
        · simp [joinRoomResolve, hit0, hcn, hlook, hroomx, hpw2, hcmp, hmain, hocc, hname]
        · intro e he
          simp [joinRoomResolve, hit0, hcn, hlook, hroomx, hpw2, hcmp, hmain, hocc, hname] at he

/-- C6 witness: main room "M" has one main occupant and one sub occupant,
`maxUsersPerRoom = 2`; a join by invite token is rejected `CHANNEL_FULL`
and the rooms are unchanged. -/
theorem c6_join_capacity_witness :
    (joinRoom hubJoinFull joinFullPayload "D" 0 "TD").2 =
      .error (ErrChannelFull ++ ":Room is full") ∧
    (joinRoom hubJoinFull joinFullPayload "D" 0 "TD").1.rooms = hubJoinFull.rooms :=
  have hthm := c6_join_capacity hubJoinFull joinFullPayload "D" 0 "TD" "M" roomMainM rfl
    (Or.inl ⟨by decide, rfl, rfl, by decide⟩) rfl
  ⟨hthm.1.mpr (by decide), hthm.2 _ (hthm.1.mpr (by decide))⟩

end QVoCh
